import Mathlib

/-!
Verification of the satellite-simulation physics core
(`src/physics-engine.ts`, constants from `src/simulation.ts`,
`maxTrailLength` from `src/scene-setup.ts`).

JavaScript numbers are modelled as real numbers; `THREE.Vector3` is a
record of three reals.  Optional TypeScript fields (`dragCoefficient?`,
`area?`, `airEnabled?`, ...) are modelled as `Option`; the `??` operator
is `Option.getD` and the falsy-default idiom `x || d` on a number is a
test against `0`.  DOM writes (`statusElement.textContent`) are modelled
as a `status` field of the engine state.  The atmospheric-density cache
is a memo table over a pure function; the definitions below model the
uncached computation path.
-/

namespace SatSim

/-- Model of `THREE.Vector3`: three real components. -/
@[ext]
structure Vec3 where
  x : ℝ
  y : ℝ
  z : ℝ

/-- Model of `Vector3.length()`: the Euclidean norm. -/
noncomputable def Vec3.length (v : Vec3) : ℝ :=
  Real.sqrt (v.x ^ 2 + v.y ^ 2 + v.z ^ 2)

/-- Model of `Vector3.multiplyScalar(c)` (value semantics). -/
def Vec3.smul (c : ℝ) (v : Vec3) : Vec3 :=
  ⟨c * v.x, c * v.y, c * v.z⟩

/-- Model of `Vector3.add(w)` (value semantics). -/
def Vec3.addV (v w : Vec3) : Vec3 :=
  ⟨v.x + w.x, v.y + w.y, v.z + w.z⟩

/-- Model of `new THREE.Vector3(0, 0, 0)`. -/
def Vec3.zero : Vec3 := ⟨0, 0, 0⟩

/-- Model of `Vector3.normalize()`: divides by the length; THREE leaves the zero
vector unchanged (`divideScalar(length || 1)`). -/
noncomputable def Vec3.normalize (v : Vec3) : Vec3 :=
  if v.length = 0 then v else Vec3.smul (1 / v.length) v

/-- Model of `Vector3.distanceTo(w)`. -/
noncomputable def Vec3.distanceTo (v w : Vec3) : ℝ :=
  Real.sqrt ((v.x - w.x) ^ 2 + (v.y - w.y) ^ 2 + (v.z - w.z) ^ 2)

/-- Constant `SatelliteSimulation.EARTH_RADIUS` (m), `src/simulation.ts`. -/
def EARTH_RADIUS : ℝ := 6371000

/-- Constant `SatelliteSimulation.EARTH_MASS` (kg), `src/simulation.ts`. -/
def EARTH_MASS : ℝ := 5.972e24

/-- Constant `SatelliteSimulation.G`, `src/simulation.ts`. -/
def G : ℝ := 6.6743e-11

/-- Constant `SceneSetup.maxTrailLength`, `src/scene-setup.ts` line 23. -/
def maxTrailLength : ℕ := 1000

/-- One entry of `PhysicsEngine.satellites` (`src/physics-engine.ts`
lines 8-20).  Optional TypeScript fields become `Option`. -/
@[ext]
structure Satellite where
  position : Vec3
  velocity : Vec3
  mass : ℝ
  dragCoefficient : Option ℝ
  area : Option ℝ
  initialDensity : Option ℝ
  densityScaleHeight : Option ℝ
  airEnabled : Option Bool
  timeScale : Option ℝ

instance : Inhabited Satellite :=
  ⟨⟨Vec3.zero, Vec3.zero, 0, none, none, none, none, none, none⟩⟩

/-- The `"status"` DOM element's text, as an enumeration:
`"Crashed!"`, `"Escaping!"`, `"Orbiting"`. -/
inductive SatStatus where
  | Crashed
  | Escaping
  | Orbiting
deriving DecidableEq

/-- The engine state touched by `updatePhysics`: the satellite list, the
trail arrays (`sceneSetup.trails`), the global `simulation.timeScale`,
and the status display. -/
structure EngineState where
  satellites : List Satellite
  trails : List (List Vec3)
  timeScale : ℝ
  status : Option SatStatus

/-- Model of `calculateAtmosphericDensity` (`src/physics-engine.ts` lines 36-89),
uncached path: clamp `h = max(0, altitude)`, then the banded model.  The
code initialises `rho = 0` and assigns in an `if/else-if` chain whose
first test is `h >= 1000000`. -/
noncomputable def calculateAtmosphericDensity (altitude : ℝ) : ℝ :=
  let h := max 0 altitude
  if 1000000 ≤ h then 0
  else if h < 11000 then 1.225 * (1 - 0.0065 * h / 288.15) ^ (4.256 : ℝ)
  else if h < 20000 then 0.3639 * Real.exp (-(h - 11000) / 6341.6)
  else if h < 32000 then 0.088 * Real.exp (-(h - 20000) / 7360.0)
  else if h < 47000 then 0.0132 * Real.exp (-(h - 32000) / 8000.0)
  else if h < 51000 then 0.00143 * Real.exp (-(h - 47000) / 7500.0)
  else if h < 71000 then 0.000086 * Real.exp (-(h - 51000) / 10000.0)
  else if h < 100000 then 0.0000032 * Real.exp (-(h - 71000) / 15000.0)
  else if h < 200000 then 1e-9 * Real.exp (-(h - 100000) / 25000.0)
  else if h < 500000 then 1e-11 * Real.exp (-(h - 200000) / 100000.0)
  else if h < 1000000 then 1e-13 * Real.exp (-(h - 500000) / 500000.0)
  else 0

/-- The altitude-band table of spec §4.1, bands matched in the listed
order (first match wins), applied to an already-clamped altitude `h`.
Written from the spec's table to compare against the code's
`calculateAtmosphericDensity`. -/
noncomputable def densitySpecTable (h : ℝ) : ℝ :=
  if h < 11000 then 1.225 * (1 - 0.0065 * h / 288.15) ^ (4.256 : ℝ)
  else if h < 20000 then 0.3639 * Real.exp (-(h - 11000) / 6341.6)
  else if h < 32000 then 0.088 * Real.exp (-(h - 20000) / 7360.0)
  else if h < 47000 then 0.0132 * Real.exp (-(h - 32000) / 8000.0)
  else if h < 51000 then 0.00143 * Real.exp (-(h - 47000) / 7500.0)
  else if h < 71000 then 0.000086 * Real.exp (-(h - 51000) / 10000.0)
  else if h < 100000 then 0.0000032 * Real.exp (-(h - 71000) / 15000.0)
  else if h < 200000 then 1e-9 * Real.exp (-(h - 100000) / 25000.0)
  else if h < 500000 then 1e-11 * Real.exp (-(h - 200000) / 100000.0)
  else if h < 1000000 then 1e-13 * Real.exp (-(h - 500000) / 500000.0)
  else 0

/-- Argument record of `addSatelliteState` (`options?`): every field may
be absent. -/
structure AddOptions where
  position : Option Vec3
  velocity : Option Vec3
  mass : Option ℝ
  dragCoefficient : Option ℝ
  area : Option ℝ
  initialDensity : Option ℝ
  densityScaleHeight : Option ℝ
  airEnabled : Option Bool
  timeScale : Option ℝ

/-- An `AddOptions` with every field absent. -/
def AddOptions.empty : AddOptions :=
  ⟨none, none, none, none, none, none, none, none, none⟩

/-- Model of `addSatelliteState` (`src/physics-engine.ts` lines 91-128).
`options?.position?.length() || default` and `options?.mass || 1000` use
the JS falsy test, which on a number is a comparison with `0`;
`options?.position || default` tests the object, so any supplied vector
(even zero) is kept; the drag fields use `??` (nullish), i.e.
`Option.getD`.  `push` appends at the end; `clone()` is value copying. -/
noncomputable def addSatelliteState (sats : List Satellite)
    (options : AddOptions) : List Satellite :=
  let height := match options.position with
    | none => EARTH_RADIUS + 400000
    | some p => if p.length = 0 then EARTH_RADIUS + 400000 else p.length
  let position := options.position.getD ⟨height, 0, 0⟩
  let velocity := options.velocity.getD ⟨0, 7800, 0⟩
  let mass := match options.mass with
    | none => 1000
    | some m => if m = 0 then 1000 else m
  let dragCoefficient := options.dragCoefficient.getD 2.2
  let area := options.area.getD 4
  let initialDensity := options.initialDensity.getD 1.225
  let densityScaleHeight := options.densityScaleHeight.getD 8500
  let airEnabled := options.airEnabled.getD true
  let timeScale := options.timeScale.getD 1
  sats ++ [{ position := position, velocity := velocity, mass := mass,
             dragCoefficient := some dragCoefficient, area := some area,
             initialDensity := some initialDensity,
             densityScaleHeight := some densityScaleHeight,
             airEnabled := some airEnabled, timeScale := some timeScale }]

/-- Gravity force of `updatePhysics` (`src/physics-engine.ts` lines
160-163): magnitude `G·M·m/d²`, direction `-normalize(position)`. -/
noncomputable def gravityForce (sat : Satellite) : Vec3 :=
  let distance := sat.position.length
  let forceMagnitude := G * EARTH_MASS * sat.mass / (distance * distance)
  let forceDirection := Vec3.smul (-1) sat.position.normalize
  Vec3.smul forceMagnitude forceDirection

/-- Drag force of `updatePhysics` (`src/physics-engine.ts` lines
165-183).  The guard tests only `altitude < 500000` and
`velocity.length() > 1`; the stored `airEnabled` flag is not read. -/
noncomputable def dragForce (sat : Satellite) : Vec3 :=
  let distance := sat.position.length
  let altitude := distance - EARTH_RADIUS
  if altitude < 500000 ∧ sat.velocity.length > 1 then
    let atmosphereDensity := 1.225 * Real.exp (-altitude / 8500)
    let velocity := sat.velocity.length
    let dragCoeff := sat.dragCoefficient.getD 2.2
    let area := sat.area.getD 4
    let dragMagnitude :=
      0.5 * atmosphereDensity * velocity * velocity * dragCoeff * area
    Vec3.smul (-dragMagnitude) sat.velocity.normalize
  else Vec3.zero

/-- Acceleration of `updatePhysics` (`src/physics-engine.ts` lines
185-189): `(gravityForce + dragForce) / mass`
(`divideScalar(m)` multiplies by `1/m`). -/
noncomputable def acceleration (sat : Satellite) : Vec3 :=
  Vec3.smul (1 / sat.mass) (Vec3.addV (gravityForce sat) (dragForce sat))

/-- The trail-recording block of `updatePhysics` (`src/physics-engine.ts`
lines 200-206): push the position if the trail is empty or it is more
than 1000 m from the last sample; `shift()` the oldest sample if the
length then exceeds `maxTrailLength`. -/
noncomputable def trailRecord (trail : List Vec3) (p : Vec3) : List Vec3 :=
  if trail.length = 0 ∨ Vec3.distanceTo p (trail.getLastD p) > 1000 then
    let t := trail ++ [p]
    if maxTrailLength < t.length then t.tail else t
  else trail

/-- Assignment to `trails[0]`, including the lazy initialisation
`if (!trails[0]) trails[0] = []` (lines 196-198). -/
def setTrail0 (trails : List (List Vec3)) (t : List Vec3) :
    List (List Vec3) :=
  match trails with
  | [] => [t]
  | _ :: rest => t :: rest

/-- Model of `updatePhysics(deltaTime)` (`src/physics-engine.ts` lines 139-230).
Only the first satellite is advanced; `dt = deltaTime * timeScale`; a
crash check against `EARTH_RADIUS + 50000` returns early; otherwise
semi-implicit Euler with the acceleration above, trail recording with
the new position, and the status display computed from the pre-update
`distance` and the post-update speed.  Purely visual updates
(`sceneSetup.satellites[0].position`, `updateTrails`, `updateInfo`)
have no effect on this state and are omitted. -/
noncomputable def updatePhysics (s : EngineState) (deltaTime : ℝ) :
    EngineState :=
  match s.satellites with
  | [] => s
  | sat :: rest =>
    let dt := deltaTime * s.timeScale
    let distance := sat.position.length
    if distance ≤ EARTH_RADIUS + 50000 then
      { s with status := some SatStatus.Crashed }
    else
      let newVelocity := Vec3.addV sat.velocity (Vec3.smul dt (acceleration sat))
      let newPosition := Vec3.addV sat.position (Vec3.smul dt newVelocity)
      let sat' := { sat with position := newPosition, velocity := newVelocity }
      let newTrails := setTrail0 s.trails (trailRecord (s.trails.headD []) newPosition)
      let escapeVelocity := Real.sqrt (2 * G * EARTH_MASS / distance)
      let currentSpeed := newVelocity.length
      { s with satellites := sat' :: rest,
               trails := newTrails,
               status := some (if currentSpeed > escapeVelocity
                               then SatStatus.Escaping else SatStatus.Orbiting) }

/-- A sequence of ticks with the given frame deltas, oldest first. -/
noncomputable def runTicks (s : EngineState) (dts : List ℝ) : EngineState :=
  dts.foldl updatePhysics s

/-! ### Basic vector lemmas -/

lemma Vec3.length_xaxis (a : ℝ) : Vec3.length ⟨a, 0, 0⟩ = |a| := by
  have h : (a : ℝ) ^ 2 + 0 ^ 2 + 0 ^ 2 = a ^ 2 := by ring
  rw [Vec3.length, h, Real.sqrt_sq_eq_abs]

lemma Vec3.length_yaxis (b : ℝ) : Vec3.length ⟨0, b, 0⟩ = |b| := by
  have h : (0 : ℝ) ^ 2 + b ^ 2 + 0 ^ 2 = b ^ 2 := by ring
  rw [Vec3.length, h, Real.sqrt_sq_eq_abs]

lemma Vec3.normalize_xaxis (a : ℝ) (ha : 0 < a) :
    Vec3.normalize ⟨a, 0, 0⟩ = ⟨1, 0, 0⟩ := by
  rw [Vec3.normalize, Vec3.length_xaxis, abs_of_pos ha, if_neg ha.ne']
  simp [Vec3.smul]
  field_simp

lemma Vec3.normalize_yaxis (b : ℝ) (hb : 0 < b) :
    Vec3.normalize ⟨0, b, 0⟩ = ⟨0, 1, 0⟩ := by
  rw [Vec3.normalize, Vec3.length_yaxis, abs_of_pos hb, if_neg hb.ne']
  simp [Vec3.smul]
  field_simp

/-! ### Branch lemmas for `updatePhysics` -/

lemma updatePhysics_nil (s : EngineState) (δ : ℝ) (hs : s.satellites = []) :
    updatePhysics s δ = s := by
  rw [updatePhysics, hs]

lemma updatePhysics_crash (s : EngineState) (δ : ℝ) (sat : Satellite)
    (rest : List Satellite) (hs : s.satellites = sat :: rest)
    (hc : sat.position.length ≤ EARTH_RADIUS + 50000) :
    updatePhysics s δ = { s with status := some SatStatus.Crashed } := by
  rw [updatePhysics, hs]
  simp only [if_pos hc]

lemma updatePhysics_noncrash (s : EngineState) (δ : ℝ) (sat : Satellite)
    (rest : List Satellite) (hs : s.satellites = sat :: rest)
    (hnc : ¬ sat.position.length ≤ EARTH_RADIUS + 50000) :
    updatePhysics s δ =
      { s with
        satellites := { sat with
          position := Vec3.addV sat.position (Vec3.smul (δ * s.timeScale)
            (Vec3.addV sat.velocity
              (Vec3.smul (δ * s.timeScale) (acceleration sat)))),
          velocity := Vec3.addV sat.velocity
            (Vec3.smul (δ * s.timeScale) (acceleration sat)) } :: rest,
        trails := setTrail0 s.trails (trailRecord (s.trails.headD [])
          (Vec3.addV sat.position (Vec3.smul (δ * s.timeScale)
            (Vec3.addV sat.velocity
              (Vec3.smul (δ * s.timeScale) (acceleration sat)))))),
        status := some (if (Vec3.addV sat.velocity
              (Vec3.smul (δ * s.timeScale) (acceleration sat))).length >
              Real.sqrt (2 * G * EARTH_MASS / sat.position.length)
          then SatStatus.Escaping else SatStatus.Orbiting) } := by
  rw [updatePhysics, hs]
  simp only [if_neg hnc]

/-! ### Example states used by witnesses -/

/-- A satellite at 629 km altitude on the x-axis, orbiting along y, with
the defaults `addSatelliteState` would store. -/
noncomputable def satEx : Satellite :=
  ⟨⟨7000000, 0, 0⟩, ⟨0, 7800, 0⟩, 1000,
   some 2.2, some 4, some 1.225, some 8500, some true, some 1⟩

lemma satEx_position_length : satEx.position.length = 7000000 := by
  show Vec3.length ⟨7000000, 0, 0⟩ = 7000000
  rw [Vec3.length_xaxis]; norm_num

/-- Engine state holding just `satEx`. -/
noncomputable def sEx1 : EngineState := ⟨[satEx], [], 1, none⟩

/-- Engine state holding `satEx` twice. -/
noncomputable def sEx2 : EngineState := ⟨[satEx, satEx], [], 1, none⟩

/-- A satellite whose distance 6 000 km is inside the crash margin. -/
noncomputable def satCr : Satellite :=
  ⟨⟨6000000, 0, 0⟩, ⟨0, 7800, 0⟩, 1000,
   some 2.2, some 4, some 1.225, some 8500, some true, some 1⟩

/-- Engine state holding just `satCr`. -/
noncomputable def sCr : EngineState := ⟨[satCr], [], 1, none⟩

/-! ### Claims -/

/-- Claim C9: a tick with `deltaTime = 0` (hence `dt = 0·timeScale = 0`
for every `timeScale` stored in the state) leaves every field of every
registered body — position, velocity, mass, drag parameters,
`airEnabled` — unchanged. -/
theorem tick_zero_dt_noop (s : EngineState) :
    (updatePhysics s 0).satellites = s.satellites := by
  rcases hs : s.satellites with _ | ⟨sat, rest⟩
  · rw [updatePhysics_nil s 0 hs]; exact hs
  · by_cases hc : sat.position.length ≤ EARTH_RADIUS + 50000
    · rw [updatePhysics_crash s 0 sat rest hs hc]; exact hs
    · rw [updatePhysics_noncrash s 0 sat rest hs hc]
      obtain ⟨p, v, m, a1, a2, a3, a4, a5, a6⟩ := sat
      simp [Vec3.addV, Vec3.smul]

/-- Claim C8: a tick advances only the first registered body: with two
or more registered bodies, the list of bodies after the first — every
one of their state fields included — is exactly what it was before the
tick, and no body is added or removed. -/
theorem tick_advances_only_first (s : EngineState) (δ : ℝ)
    (h2 : 2 ≤ s.satellites.length) :
    (updatePhysics s δ).satellites.length = s.satellites.length ∧
    (updatePhysics s δ).satellites.tail = s.satellites.tail := by
  rcases hs : s.satellites with _ | ⟨sat, rest⟩
  · rw [updatePhysics_nil s δ hs]; exact ⟨by simp [hs], by simp [hs]⟩
  · by_cases hc : sat.position.length ≤ EARTH_RADIUS + 50000
    · rw [updatePhysics_crash s δ sat rest hs hc]
      exact ⟨by simp [hs], by simp [hs]⟩
    · rw [updatePhysics_noncrash s δ sat rest hs hc]
      exact ⟨rfl, rfl⟩

/-- Witness for C8 at a concrete two-body state. -/
theorem tick_advances_only_first_witness :
    (updatePhysics sEx2 1).satellites.length = sEx2.satellites.length ∧
    (updatePhysics sEx2 1).satellites.tail = sEx2.satellites.tail :=
  tick_advances_only_first sEx2 1 (by simp [sEx2])

/-- Claim C5: on a non-crashed tick with effective step
`dt = deltaTime · timeScale`, the update is semi-implicit Euler: the new
velocity is `velocity + acceleration·dt`, and the new position is
`position + (new velocity)·dt`, i.e. the position update uses the
already-updated velocity. -/
theorem tick_semi_implicit_euler (s : EngineState) (δ : ℝ) (sat : Satellite)
    (rest : List Satellite) (hs : s.satellites = sat :: rest)
    (hnc : ¬ sat.position.length ≤ EARTH_RADIUS + 50000) :
    (updatePhysics s δ).satellites =
      { sat with
        velocity := Vec3.addV sat.velocity
          (Vec3.smul (δ * s.timeScale) (acceleration sat)),
        position := Vec3.addV sat.position (Vec3.smul (δ * s.timeScale)
          (Vec3.addV sat.velocity
            (Vec3.smul (δ * s.timeScale) (acceleration sat)))) } :: rest := by
  rw [updatePhysics_noncrash s δ sat rest hs hnc]

/-- Witness for C5 at a concrete non-crashed one-body state. -/
theorem tick_semi_implicit_euler_witness :
    (updatePhysics sEx1 1).satellites =
      [{ satEx with
         velocity := Vec3.addV satEx.velocity
           (Vec3.smul (1 * sEx1.timeScale) (acceleration satEx)),
         position := Vec3.addV satEx.position (Vec3.smul (1 * sEx1.timeScale)
           (Vec3.addV satEx.velocity
             (Vec3.smul (1 * sEx1.timeScale) (acceleration satEx)))) }] :=
  tick_semi_implicit_euler sEx1 1 satEx [] rfl
    (by rw [satEx_position_length, EARTH_RADIUS]; norm_num)

lemma updatePhysics_get_crashed (s : EngineState) (δ : ℝ) (i : ℕ)
    (sat : Satellite) (hget : s.satellites[i]? = some sat)
    (hc : sat.position.length ≤ EARTH_RADIUS + 50000) :
    (updatePhysics s δ).satellites[i]? = some sat := by
  rcases hs : s.satellites with _ | ⟨a, rest⟩
  · rw [hs] at hget; simp at hget
  · rcases i with _ | n
    · rw [hs] at hget
      simp only [List.getElem?_cons_zero, Option.some.injEq] at hget
      subst hget
      rw [updatePhysics_crash s δ a rest hs hc]
      show s.satellites[0]? = some a
      rw [hs]; simp
    · by_cases hca : a.position.length ≤ EARTH_RADIUS + 50000
      · rw [updatePhysics_crash s δ a rest hs hca]
        exact hget
      · rw [updatePhysics_noncrash s δ a rest hs hca]
        rw [hs] at hget
        simpa using hget

/-- Claim C4: a body whose distance from the origin is at most
`EARTH_RADIUS + 50000` at the start of a tick is left exactly as it is
by that tick and by every subsequent tick (any sequence of frame
deltas): the crash state is terminal. -/
theorem crashed_terminal (s : EngineState) (dts : List ℝ) (i : ℕ)
    (sat : Satellite) (hget : s.satellites[i]? = some sat)
    (hc : sat.position.length ≤ EARTH_RADIUS + 50000) :
    (runTicks s dts).satellites[i]? = some sat := by
  induction dts generalizing s with
  | nil => exact hget
  | cons δ tl ih =>
    have h1 := updatePhysics_get_crashed s δ i sat hget hc
    exact ih (updatePhysics s δ) h1

/-- Witness for C4: a concrete crashed body is untouched by two further
ticks. -/
theorem crashed_terminal_witness :
    (runTicks sCr [1, 2]).satellites[0]? = some satCr :=
  crashed_terminal sCr [1, 2] 0 satCr rfl
    (by show Vec3.length ⟨6000000, 0, 0⟩ ≤ EARTH_RADIUS + 50000
        rw [Vec3.length_xaxis, EARTH_RADIUS]; norm_num)

/-! ### Density model lemmas -/

set_option maxHeartbeats 1000000 in
lemma densityTable_nonneg (h : ℝ) : 0 ≤ densitySpecTable h := by
  have hexp : ∀ c d : ℝ, 0 < c → 0 ≤ c * Real.exp d := fun c d hc =>
    le_of_lt (mul_pos hc (Real.exp_pos d))
  unfold densitySpecTable
  split_ifs with h1
  · have hb : (0 : ℝ) < 1 - 0.0065 * h / 288.15 := by
      rw [sub_pos, div_lt_one (by norm_num : (0 : ℝ) < 288.15)]
      nlinarith
    exact le_of_lt (mul_pos (by norm_num) (Real.rpow_pos_of_pos hb _))
  all_goals first
    | exact hexp _ _ (by norm_num)
    | norm_num

lemma densityTable_vacuum (h : ℝ) (hh : 1000000 ≤ h) :
    densitySpecTable h = 0 := by
  unfold densitySpecTable
  rw [if_neg (not_lt.mpr (by linarith : (11000 : ℝ) ≤ h)),
      if_neg (not_lt.mpr (by linarith : (20000 : ℝ) ≤ h)),
      if_neg (not_lt.mpr (by linarith : (32000 : ℝ) ≤ h)),
      if_neg (not_lt.mpr (by linarith : (47000 : ℝ) ≤ h)),
      if_neg (not_lt.mpr (by linarith : (51000 : ℝ) ≤ h)),
      if_neg (not_lt.mpr (by linarith : (71000 : ℝ) ≤ h)),
      if_neg (not_lt.mpr (by linarith : (100000 : ℝ) ≤ h)),
      if_neg (not_lt.mpr (by linarith : (200000 : ℝ) ≤ h)),
      if_neg (not_lt.mpr (by linarith : (500000 : ℝ) ≤ h)),
      if_neg (not_lt.mpr hh)]

lemma density_eq_table (a : ℝ) :
    calculateAtmosphericDensity a = densitySpecTable (max 0 a) := by
  simp only [calculateAtmosphericDensity]
  by_cases h6 : (1000000 : ℝ) ≤ max 0 a
  · rw [if_pos h6, densityTable_vacuum _ h6]
  · rw [if_neg h6]
    unfold densitySpecTable
    rfl

/-- Claim C6: on the uncached path, `calculateAtmosphericDensity a` is
exactly the §4.1 band table evaluated at `h = max(0, a)` with the bands
matched in the listed order; consequently the result is non-negative,
every negative altitude gives the sea-level value, and every altitude
at or above 1 000 000 m gives zero. -/
theorem calculateAtmosphericDensity_spec :
    (∀ a : ℝ, calculateAtmosphericDensity a = densitySpecTable (max 0 a)) ∧
    (∀ a : ℝ, 0 ≤ calculateAtmosphericDensity a) ∧
    (∀ a : ℝ, a < 0 →
      calculateAtmosphericDensity a = calculateAtmosphericDensity 0) ∧
    (∀ a : ℝ, 1000000 ≤ a → calculateAtmosphericDensity a = 0) := by
  refine ⟨density_eq_table, ?_, ?_, ?_⟩
  · intro a; rw [density_eq_table]; exact densityTable_nonneg _
  · intro a ha
    rw [density_eq_table, density_eq_table, max_eq_left ha.le, max_self]
  · intro a ha
    rw [density_eq_table, max_eq_right (by linarith : (0 : ℝ) ≤ a)]
    exact densityTable_vacuum a ha

/-- Witness for C6 at concrete altitudes. -/
theorem calculateAtmosphericDensity_spec_witness :
    calculateAtmosphericDensity (-100) = calculateAtmosphericDensity 0 ∧
    calculateAtmosphericDensity 2000000 = 0 ∧
    calculateAtmosphericDensity 5000 = densitySpecTable (max 0 5000) ∧
    0 ≤ calculateAtmosphericDensity 5000 :=
  ⟨calculateAtmosphericDensity_spec.2.2.1 (-100) (by norm_num),
   calculateAtmosphericDensity_spec.2.2.2 2000000 (by norm_num),
   calculateAtmosphericDensity_spec.1 5000,
   calculateAtmosphericDensity_spec.2.1 5000⟩

/-! ### Trail lemmas -/

lemma trailRecord_length_le (trail : List Vec3) (p : Vec3)
    (h : trail.length ≤ maxTrailLength) :
    (trailRecord trail p).length ≤ maxTrailLength := by
  unfold trailRecord
  by_cases h1 : trail.length = 0 ∨ Vec3.distanceTo p (trail.getLastD p) > 1000
  · rw [if_pos h1]
    show (if maxTrailLength < (trail ++ [p]).length
          then (trail ++ [p]).tail else trail ++ [p]).length ≤ maxTrailLength
    by_cases h2 : maxTrailLength < (trail ++ [p]).length
    · rw [if_pos h2]
      simp only [List.length_tail, List.length_append, List.length_singleton]
      omega
    · rw [if_neg h2]; exact not_lt.mp h2
  · rw [if_neg h1]; exact h

/-- Claim C7: (1) a tick preserves the invariant that every trail has at
most `maxTrailLength` (= 1000) samples; (2) the recording step leaves
the trail untouched unless the trail is empty or the new position is
more than 1000 m from the last recorded sample; (3) when the trail is at
the cap and a sample is recorded, the oldest sample is evicted first
(FIFO): the result is `tail ++ [p]`. -/
theorem trail_bounded_and_fifo :
    (∀ (s : EngineState) (δ : ℝ),
       (∀ t ∈ s.trails, t.length ≤ maxTrailLength) →
       ∀ t ∈ (updatePhysics s δ).trails, t.length ≤ maxTrailLength) ∧
    (∀ (trail : List Vec3) (p : Vec3),
       ¬ (trail.length = 0 ∨ Vec3.distanceTo p (trail.getLastD p) > 1000) →
       trailRecord trail p = trail) ∧
    (∀ (trail : List Vec3) (p : Vec3),
       (trail.length = 0 ∨ Vec3.distanceTo p (trail.getLastD p) > 1000) →
       trail.length = maxTrailLength →
       trailRecord trail p = trail.tail ++ [p]) := by
  refine ⟨?_, ?_, ?_⟩
  · intro s δ hinv t ht
    rcases hs : s.satellites with _ | ⟨sat, rest⟩
    · rw [updatePhysics_nil s δ hs] at ht; exact hinv t ht
    · by_cases hc : sat.position.length ≤ EARTH_RADIUS + 50000
      · rw [updatePhysics_crash s δ sat rest hs hc] at ht
        exact hinv t ht
      · rw [updatePhysics_noncrash s δ sat rest hs hc] at ht
        rcases hts : s.trails with _ | ⟨t0, ts⟩
        · rw [hts] at ht
          simp only [setTrail0, List.headD_nil, List.mem_singleton] at ht
          subst ht
          exact trailRecord_length_le [] _ (by simp [maxTrailLength])
        · rw [hts] at ht
          simp only [setTrail0, List.headD_cons, List.mem_cons] at ht
          rcases ht with ht | ht
          · subst ht
            exact trailRecord_length_le t0 _
              (hinv t0 (by rw [hts]; exact List.mem_cons_self t0 ts))
          · exact hinv t (by rw [hts]; exact List.mem_cons_of_mem t0 ht)
  · intro trail p hcond
    unfold trailRecord
    rw [if_neg hcond]
  · intro trail p hcond hlen
    unfold trailRecord
    rw [if_pos hcond, if_pos (by simp [hlen])]
    rcases trail with _ | ⟨a, l⟩
    · rw [maxTrailLength] at hlen; simp at hlen
    · rfl

/-- A full trail of 1000 samples at the origin. -/
def trFull : List Vec3 := List.replicate 999 Vec3.zero ++ [Vec3.zero]

/-- Witness for C7: the tick-level bound on a concrete state, the
no-record case at a near sample, and the FIFO eviction on a full
trail. -/
theorem trail_bounded_and_fifo_witness :
    (∀ t ∈ (updatePhysics sCr 1).trails, t.length ≤ maxTrailLength) ∧
    trailRecord [Vec3.zero] Vec3.zero = [Vec3.zero] ∧
    trailRecord trFull ⟨5000, 0, 0⟩ = trFull.tail ++ [⟨5000, 0, 0⟩] := by
  refine ⟨trail_bounded_and_fifo.1 sCr 1 (by simp [sCr]), ?_, ?_⟩
  · refine trail_bounded_and_fifo.2.1 [Vec3.zero] Vec3.zero ?_
    intro hcond
    rcases hcond with h | h
    · simp at h
    · have hd : Vec3.distanceTo Vec3.zero
          (([Vec3.zero] : List Vec3).getLastD Vec3.zero) = 0 := by
        show Vec3.distanceTo Vec3.zero Vec3.zero = 0
        rw [Vec3.distanceTo, Vec3.zero]
        norm_num
      rw [hd] at h
      norm_num at h
  · refine trail_bounded_and_fifo.2.2 trFull ⟨5000, 0, 0⟩ (Or.inr ?_) ?_
    · have hlast : trFull.getLastD ⟨5000, 0, 0⟩ = Vec3.zero :=
        List.getLastD_concat _ _ _
      rw [hlast]
      have hd : Vec3.distanceTo ⟨5000, 0, 0⟩ Vec3.zero = 5000 := by
        rw [Vec3.distanceTo, Vec3.zero]
        have h5 : ((5000 : ℝ) - 0) ^ 2 + (0 - 0) ^ 2 + (0 - 0) ^ 2
            = 5000 ^ 2 := by ring
        rw [h5, Real.sqrt_sq (by norm_num)]
      rw [hd]
      norm_num
    · show trFull.length = maxTrailLength
      rw [trFull, List.length_append, List.length_replicate, maxTrailLength,
        List.length_singleton]

/-! ### Drag lemmas -/

lemma Vec3.addV_zero (v : Vec3) : v.addV Vec3.zero = v := by
  cases v; simp [Vec3.addV, Vec3.zero]

lemma dragForce_inactive (sat : Satellite)
    (h : 500000 ≤ sat.position.length - EARTH_RADIUS ∨
         sat.velocity.length ≤ 1) :
    dragForce sat = Vec3.zero := by
  unfold dragForce
  rw [if_neg]
  intro hcond
  rcases h with h | h
  · exact absurd hcond.1 (not_lt.mpr h)
  · exact absurd hcond.2 (not_lt.mpr h)

/-- A still satellite with `airEnabled = false`, outside the crash
margin. -/
noncomputable def satStill : Satellite :=
  ⟨⟨7000000, 0, 0⟩, ⟨0, 0, 0⟩, 1000,
   some 2.2, some 4, some 1.225, some 8500, some false, some 1⟩

/-- A satellite with `airEnabled = false` inside the drag-active zone
(429 km altitude) moving at 7800 m/s. -/
noncomputable def satC1 : Satellite :=
  ⟨⟨6800000, 0, 0⟩, ⟨0, 7800, 0⟩, 1000,
   some 2.2, some 4, some 1.225, some 8500, some false, some 1⟩

/-- Engine state holding just `satC1`. -/
noncomputable def sC1 : EngineState := ⟨[satC1], [], 1, none⟩

lemma satC1_position_length : satC1.position.length = 6800000 := by
  show Vec3.length ⟨6800000, 0, 0⟩ = 6800000
  rw [Vec3.length_xaxis]; norm_num

lemma satC1_velocity_length : satC1.velocity.length = 7800 := by
  show Vec3.length ⟨0, 7800, 0⟩ = 7800
  rw [Vec3.length_yaxis]; norm_num

lemma satC1_dragForce :
    dragForce satC1 =
      ⟨0, -(0.5 * (1.225 * Real.exp (-(6800000 - EARTH_RADIUS) / 8500)) *
            7800 * 7800 * 2.2 * 4), 0⟩ := by
  simp only [dragForce]
  rw [satC1_position_length, satC1_velocity_length,
    show satC1.velocity.normalize = ⟨0, 1, 0⟩ from
      Vec3.normalize_yaxis 7800 (by norm_num),
    if_pos ⟨by rw [EARTH_RADIUS]; norm_num, by norm_num⟩]
  show Vec3.smul _ _ = _
  rw [show satC1.dragCoefficient = some 2.2 from rfl,
    show satC1.area = some 4 from rfl]
  simp [Vec3.smul, Option.getD]

/-- Counterexample to C1: `satC1` has `airEnabled = some false`, yet the
drag force computed by the integrator — and with it the drag term of the
acceleration — is not the zero vector. -/
theorem airEnabled_ignored_cex :
    satC1.airEnabled = some false ∧
    dragForce satC1 ≠ Vec3.zero ∧
    Vec3.smul (1 / satC1.mass) (dragForce satC1) ≠ Vec3.zero := by
  have hM : 0 < 0.5 * (1.225 * Real.exp (-(6800000 - EARTH_RADIUS) / 8500)) *
      7800 * 7800 * 2.2 * 4 := by positivity
  refine ⟨rfl, ?_, ?_⟩
  · rw [satC1_dragForce]
    intro h
    have hy := congrArg Vec3.y h
    simp only [Vec3.zero] at hy
    linarith
  · rw [satC1_dragForce]
    intro h
    have hy := congrArg Vec3.y h
    rw [show satC1.mass = 1000 from rfl] at hy
    simp only [Vec3.smul, Vec3.zero] at hy
    have h0 : (1 : ℝ) / 1000 *
        -(0.5 * (1.225 * Real.exp (-(6800000 - EARTH_RADIUS) / 8500)) *
          7800 * 7800 * 2.2 * 4) < 0 := by
      apply mul_neg_of_pos_of_neg (by norm_num)
      linarith
    rw [hy] at h0
    exact lt_irrefl 0 h0

/-- Claim C1 (amended): the integrator never reads `airEnabled`.  For
every registered body for which the code's drag guard is inactive —
altitude at least 500 000 m or speed at most 1 m/s — the drag force is
the zero vector and the total acceleration reduces to the gravitational
term alone, irrespective of the stored `airEnabled` value.  Setting
`airEnabled = false` does not by itself force drag to zero: the
counterexample exhibits a body with `airEnabled = false` inside the
guard whose drag force is non-zero. -/
theorem drag_zero_of_guard_inactive (sat : Satellite)
    (h : 500000 ≤ sat.position.length - EARTH_RADIUS ∨
         sat.velocity.length ≤ 1) :
    dragForce sat = Vec3.zero ∧
    acceleration sat = Vec3.smul (1 / sat.mass) (gravityForce sat) := by
  have hd := dragForce_inactive sat h
  exact ⟨hd, by rw [acceleration, hd, Vec3.addV_zero]⟩

/-- Witness for the amended C1 at a still body with
`airEnabled = false`. -/
theorem drag_zero_of_guard_inactive_witness :
    dragForce satStill = Vec3.zero ∧
    acceleration satStill =
      Vec3.smul (1 / satStill.mass) (gravityForce satStill) :=
  drag_zero_of_guard_inactive satStill
    (Or.inr (by show Vec3.length ⟨0, 0, 0⟩ ≤ 1
                rw [Vec3.length_xaxis]; norm_num))

/-! ### Equivalence principle -/

lemma acceleration_mass_independent (sat : Satellite) (m₂ : ℝ)
    (hm₁ : sat.mass ≠ 0) (hm₂ : m₂ ≠ 0)
    (hdrag : 500000 ≤ sat.position.length - EARTH_RADIUS ∨
             sat.velocity.length ≤ 1) :
    acceleration { sat with mass := m₂ } = acceleration sat := by
  have hd₁ := dragForce_inactive sat hdrag
  have hd₂ : dragForce { sat with mass := m₂ } = Vec3.zero :=
    dragForce_inactive _ hdrag
  rw [acceleration, acceleration, hd₁, hd₂, Vec3.addV_zero, Vec3.addV_zero]
  simp only [gravityForce, Vec3.smul]
  have key : ∀ m nx : ℝ, m ≠ 0 →
      1 / m * (G * EARTH_MASS * m /
        (sat.position.length * sat.position.length) * (-1 * nx)) =
      G * EARTH_MASS / (sat.position.length * sat.position.length) *
        (-1 * nx) := by
    intro m nx hm
    have h : 1 / m * (G * EARTH_MASS * m /
        (sat.position.length * sat.position.length) * (-1 * nx)) =
        m⁻¹ * m * (G * EARTH_MASS /
          (sat.position.length * sat.position.length) * (-1 * nx)) := by
      ring
    rw [h, inv_mul_cancel₀ hm, one_mul]
  apply Vec3.ext
  · exact (key m₂ _ hm₂).trans (key sat.mass _ hm₁).symm
  · exact (key m₂ _ hm₂).trans (key sat.mass _ hm₁).symm
  · exact (key m₂ _ hm₂).trans (key sat.mass _ hm₁).symm

/-- Claim C10: two bodies identical except for their (non-zero) masses,
both outside the drag-active guard (altitude at least 500 km or speed at
most 1 m/s), end one tick with identical position and velocity:
gravitational acceleration does not depend on the body's own mass. -/
theorem tick_mass_independent (s₁ s₂ : EngineState) (δ m₂ : ℝ)
    (sat : Satellite) (r₁ r₂ : List Satellite)
    (h₁ : s₁.satellites = sat :: r₁)
    (h₂ : s₂.satellites = { sat with mass := m₂ } :: r₂)
    (hts : s₂.timeScale = s₁.timeScale)
    (hm₁ : 0 < sat.mass) (hm₂ : 0 < m₂)
    (hdrag : 500000 ≤ sat.position.length - EARTH_RADIUS ∨
             sat.velocity.length ≤ 1) :
    ((updatePhysics s₁ δ).satellites.headD default).position =
      ((updatePhysics s₂ δ).satellites.headD default).position ∧
    ((updatePhysics s₁ δ).satellites.headD default).velocity =
      ((updatePhysics s₂ δ).satellites.headD default).velocity := by
  by_cases hc : sat.position.length ≤ EARTH_RADIUS + 50000
  · rw [updatePhysics_crash s₁ δ sat r₁ h₁ hc,
        updatePhysics_crash s₂ δ { sat with mass := m₂ } r₂ h₂ hc]
    constructor <;> simp [h₁, h₂]
  · have hacc := acceleration_mass_independent sat m₂ hm₁.ne' hm₂.ne' hdrag
    rw [updatePhysics_noncrash s₁ δ sat r₁ h₁ hc,
        updatePhysics_noncrash s₂ δ { sat with mass := m₂ } r₂ h₂ hc]
    constructor <;> simp [hts, hacc]

/-- Engine state holding `satEx` with its mass changed to 2000 kg. -/
noncomputable def sEx1b : EngineState := ⟨[{ satEx with mass := 2000 }], [], 1, none⟩

/-- Witness for C10 at `satEx` (629 km altitude, outside the drag zone)
with masses 1000 kg and 2000 kg. -/
theorem tick_mass_independent_witness :
    ((updatePhysics sEx1 1).satellites.headD default).position =
      ((updatePhysics sEx1b 1).satellites.headD default).position ∧
    ((updatePhysics sEx1 1).satellites.headD default).velocity =
      ((updatePhysics sEx1b 1).satellites.headD default).velocity :=
  tick_mass_independent sEx1 sEx1b 1 2000 satEx [] [] rfl rfl rfl
    (by show (0 : ℝ) < 1000; norm_num)
    (by norm_num)
    (Or.inl (by rw [satEx_position_length, EARTH_RADIUS]; norm_num))

/-! ### Registry mass validation -/

lemma addSatelliteState_neg_mass_value :
    addSatelliteState [] { AddOptions.empty with mass := some (-5) } =
      [{ position := ⟨EARTH_RADIUS + 400000, 0, 0⟩, velocity := ⟨0, 7800, 0⟩,
         mass := -5, dragCoefficient := some 2.2, area := some 4,
         initialDensity := some 1.225, densityScaleHeight := some 8500,
         airEnabled := some true, timeScale := some 1 }] := by
  simp only [addSatelliteState, AddOptions.empty, Option.getD_none,
    List.nil_append]
  rw [if_neg (by norm_num : (-5 : ℝ) ≠ 0)]

/-- Counterexample to C3: `addSatelliteState` with a caller-supplied
mass of `-5` stores a body whose mass is `-5`, not the default 1000 kg:
the JS falsy test `options?.mass || 1000` only replaces a mass equal to
zero. -/
theorem addSatelliteState_neg_mass_cex :
    ¬ (∀ sat ∈ addSatelliteState []
          { AddOptions.empty with mass := some (-5) }, 0 < sat.mass) := by
  intro h
  have h5 := h { position := ⟨EARTH_RADIUS + 400000, 0, 0⟩,
                 velocity := ⟨0, 7800, 0⟩, mass := -5,
                 dragCoefficient := some 2.2, area := some 4,
                 initialDensity := some 1.225, densityScaleHeight := some 8500,
                 airEnabled := some true, timeScale := some 1 }
    (by rw [addSatelliteState_neg_mass_value]; exact List.mem_singleton.mpr rfl)
  norm_num at h5

/-- Claim C3 (amended): `addSatelliteState` substitutes the default
1000 kg only for an absent or zero caller mass (the JS falsy test), so
every stored body has positive mass provided every caller-supplied mass
is non-negative; a negative supplied mass is stored unchanged and
violates the invariant. -/
theorem addSatelliteState_mass_pos (sats : List Satellite) (o : AddOptions)
    (hin : ∀ sat ∈ sats, 0 < sat.mass)
    (ho : ∀ m ∈ o.mass, 0 ≤ m) :
    ∀ sat ∈ addSatelliteState sats o, 0 < sat.mass := by
  intro sat hsat
  simp only [addSatelliteState, List.mem_append, List.mem_singleton] at hsat
  rcases hsat with h | h
  · exact hin sat h
  · subst h
    rcases ho2 : o.mass with _ | m
    · show (0 : ℝ) < 1000
      norm_num
    · have hm := ho m (by simp [ho2])
      show 0 < if m = 0 then (1000 : ℝ) else m
      by_cases h0 : m = 0
      · rw [if_pos h0]; norm_num
      · rw [if_neg h0]
        exact lt_of_le_of_ne hm (fun he => h0 he.symm)

/-- Witness for the amended C3: with no options at all the stored body
has positive mass. -/
theorem addSatelliteState_mass_pos_witness :
    0 < (({ position := ⟨EARTH_RADIUS + 400000, 0, 0⟩,
            velocity := ⟨0, 7800, 0⟩, mass := 1000,
            dragCoefficient := some 2.2, area := some 4,
            initialDensity := some 1.225, densityScaleHeight := some 8500,
            airEnabled := some true, timeScale := some 1 } : Satellite)).mass := by
  apply addSatelliteState_mass_pos [] AddOptions.empty
    (by intro sat hsat; simp at hsat) (by intro m hm; simp [AddOptions.empty] at hm)
  have he : addSatelliteState [] AddOptions.empty =
      [{ position := ⟨EARTH_RADIUS + 400000, 0, 0⟩, velocity := ⟨0, 7800, 0⟩,
         mass := 1000, dragCoefficient := some 2.2, area := some 4,
         initialDensity := some 1.225, densityScaleHeight := some 8500,
         airEnabled := some true, timeScale := some 1 }] := by
    simp only [addSatelliteState, AddOptions.empty, Option.getD_none,
      List.nil_append]
  rw [he]
  exact List.mem_singleton.mpr rfl

/-! ### Escape/orbit classification -/

/-- Claim C2 (amended): on a non-crashed tick the status display is
`Escaping` exactly when the post-update speed exceeds the escape
velocity `sqrt(2·G·M/d)` computed from the PRE-update distance
`d = |position|` measured at the start of the tick — the code does not
recompute the distance after the Euler update — and `Orbiting`
otherwise. -/
theorem status_escape_pre_distance (s : EngineState) (δ : ℝ)
    (sat : Satellite) (rest : List Satellite)
    (hs : s.satellites = sat :: rest)
    (hnc : ¬ sat.position.length ≤ EARTH_RADIUS + 50000) :
    (updatePhysics s δ).status =
      some (if (Vec3.addV sat.velocity
              (Vec3.smul (δ * s.timeScale) (acceleration sat))).length >
            Real.sqrt (2 * G * EARTH_MASS / sat.position.length)
        then SatStatus.Escaping else SatStatus.Orbiting) := by
  rw [updatePhysics_noncrash s δ sat rest hs hnc]

/-- Witness for the amended C2 at a concrete non-crashed state. -/
theorem status_escape_pre_distance_witness :
    (updatePhysics sEx1 1).status =
      some (if (Vec3.addV satEx.velocity
              (Vec3.smul (1 * sEx1.timeScale) (acceleration satEx))).length >
            Real.sqrt (2 * G * EARTH_MASS / satEx.position.length)
        then SatStatus.Escaping else SatStatus.Orbiting) :=
  status_escape_pre_distance sEx1 1 satEx [] rfl
    (by rw [satEx_position_length, EARTH_RADIUS]; norm_num)

/-- A body at 7000 km from the centre falling inward at 10 500 m/s. -/
noncomputable def satC2 : Satellite :=
  ⟨⟨7000000, 0, 0⟩, ⟨-10500, 0, 0⟩, 1000,
   some 2.2, some 4, some 1.225, some 8500, some true, some 1⟩

/-- Engine state holding just `satC2`. -/
noncomputable def sC2 : EngineState := ⟨[satC2], [], 1, none⟩

lemma satC2_position_length : satC2.position.length = 7000000 := by
  show Vec3.length ⟨7000000, 0, 0⟩ = 7000000
  rw [Vec3.length_xaxis]; norm_num

lemma two_GM_value : G * EARTH_MASS = 398589196000000 := by
  rw [G, EARTH_MASS]; norm_num

lemma satC2_acceleration :
    acceleration satC2 = ⟨-(398589196000000 / 49000000000000), 0, 0⟩ := by
  have hdrag0 : dragForce satC2 = Vec3.zero :=
    dragForce_inactive satC2
      (Or.inl (by rw [satC2_position_length, EARTH_RADIUS]; norm_num))
  rw [acceleration, hdrag0, Vec3.addV_zero]
  simp only [gravityForce]
  rw [satC2_position_length,
    show satC2.position.normalize = ⟨1, 0, 0⟩ from
      Vec3.normalize_xaxis 7000000 (by norm_num),
    show satC2.mass = 1000 from rfl]
  apply Vec3.ext <;> simp only [Vec3.smul] <;> rw [two_GM_value] <;> norm_num

lemma satC2_newVelocity :
    Vec3.addV satC2.velocity
      (Vec3.smul (100 * sC2.timeScale) (acceleration satC2)) =
    ⟨-(1385897299 / 122500), 0, 0⟩ := by
  rw [satC2_acceleration, show sC2.timeScale = 1 from rfl,
    show satC2.velocity = ⟨-10500, 0, 0⟩ from rfl]
  apply Vec3.ext <;> simp only [Vec3.addV, Vec3.smul] <;> norm_num

/-- Counterexample to C2: on a concrete non-crashed tick the status is
`Escaping`, yet the post-update speed does not exceed the escape
velocity computed from the post-update (recomputed) distance — so the
claimed equivalence with the post-update distance is false. -/
theorem status_escape_post_distance_cex :
    (updatePhysics sC2 100).status = some SatStatus.Escaping ∧
    ¬ (((updatePhysics sC2 100).satellites.headD default).velocity.length >
        Real.sqrt (2 * G * EARTH_MASS /
          ((updatePhysics sC2 100).satellites.headD default).position.length)) := by
  have hnc : ¬ satC2.position.length ≤ EARTH_RADIUS + 50000 := by
    rw [satC2_position_length, EARTH_RADIUS]; norm_num
  have htick := updatePhysics_noncrash sC2 100 satC2 [] rfl hnc
  have hv' := satC2_newVelocity
  have hvlen : (Vec3.addV satC2.velocity
      (Vec3.smul (100 * sC2.timeScale) (acceleration satC2))).length =
      1385897299 / 122500 := by
    rw [hv', Vec3.length_xaxis, abs_of_nonpos (by norm_num)]
    norm_num
  have hp' : Vec3.addV satC2.position
      (Vec3.smul (100 * sC2.timeScale) (Vec3.addV satC2.velocity
        (Vec3.smul (100 * sC2.timeScale) (acceleration satC2)))) =
      ⟨718910270100 / 122500, 0, 0⟩ := by
    rw [hv', show sC2.timeScale = 1 from rfl,
      show satC2.position = ⟨7000000, 0, 0⟩ from rfl]
    apply Vec3.ext <;> simp only [Vec3.addV, Vec3.smul] <;> norm_num
  have hGM2 : (2 : ℝ) * G * EARTH_MASS = 797178392000000 := by
    rw [G, EARTH_MASS]; norm_num
  constructor
  · rw [htick]
    show some (if _ > _ then SatStatus.Escaping else SatStatus.Orbiting) =
      some SatStatus.Escaping
    rw [hvlen, satC2_position_length, hGM2,
      if_pos ((Real.sqrt_lt' (by norm_num)).mpr (by norm_num))]
  · rw [htick]
    show ¬ ((Vec3.addV satC2.velocity
        (Vec3.smul (100 * sC2.timeScale) (acceleration satC2))).length >
      Real.sqrt (2 * G * EARTH_MASS /
        (Vec3.addV satC2.position
          (Vec3.smul (100 * sC2.timeScale) (Vec3.addV satC2.velocity
            (Vec3.smul (100 * sC2.timeScale) (acceleration satC2))))).length))
    rw [hvlen, hp', Vec3.length_xaxis, abs_of_nonneg (by norm_num), hGM2]
    exact not_lt.mpr ((Real.le_sqrt (by norm_num) (by norm_num)).mpr
      (by norm_num))

end SatSim
